import Mathlib

/-!
Verification of the selector-chain / action-builder / wait-retry layer of
`snippet_uiautomator/uiobject2.py`.

The Python classes are shallowly embedded as Lean structures.  Each builder
method becomes a pure function that returns the ordered list of RPC calls it
issues together with its result (`Except Err α` models Python's
return-or-raise).  The responses of the remote automation service are passed
in as explicit boolean parameters, so that every local control-flow path of
the source can be examined.

The modules `byselector.py`, `utils.py`, `constants.py` and `errors.py` are
not part of the sources under verification; the small pieces of them that
`uiobject2.py` uses are modelled from the specification and marked as such.
-/

/-- A criteria mapping: the keyword arguments (`**kwargs`) a caller supplies
as matching criteria, as an ordered key/value list. -/
abbrev Criteria : Type := List (String × String)

/-- One step of a selector chain: a relation tag plus matching criteria. -/
structure SelectorStep where
  tag : String
  criteria : Criteria
deriving DecidableEq, Repr

/-- A wire-level selector argument of an RPC call.  `chain` is the
serialization (`to_dict`) of a `BySelector` chain; `raw` is a bare criteria
mapping passed directly, without going through the selector type. -/
inductive WireSel where
  | chain (steps : List SelectorStep)
  | raw (criteria : Criteria)
deriving DecidableEq, Repr

/-- A positional argument of an RPC call, as it crosses the RPC boundary. -/
inductive WireVal where
  | wsel (w : WireSel)
  | wint (n : Int)
  | wnat (n : Nat)
  | wosn (n : Option Nat)
  | wosi (n : Option Int)
  | wstr (s : String)
deriving DecidableEq, Repr

/-- One RPC call: the remote method's name and its positional arguments. -/
structure Rpc where
  method : String
  args : List WireVal
deriving DecidableEq, Repr

/-- The error taxonomy of this layer.  `apiError` is the invalid-argument
error raised before any RPC call; `uiObjectSearchError` is the strict-mode
object-search error, carrying its chained cause (`raise ... from e`). -/
inductive Err where
  | apiError (msg : String)
  | uiObjectSearchError (msg : String) (cause : Option Err)

/-- Modelled from the spec: callers supply time values in an unspecified but
convertible unit, normalized to whole milliseconds (`utils.TimeUnit`,
`utils.py` is not among the sources under verification). -/
inductive TimeUnit where
  | millis (n : Nat)
  | seconds (n : Nat)
deriving DecidableEq, Repr

/-- Modelled from the spec: `utils.covert_to_millisecond` converts a caller's
time value to whole milliseconds (`utils.py` is not among the sources under
verification). -/
def covert_to_millisecond : TimeUnit → Nat
  | TimeUnit.millis n => n
  | TimeUnit.seconds n => n * 1000

/-- Modelled from the spec: `constants.DEFAULT_SNIPPET_RPC_TIMEOUT`, the
fixed RPC-channel timeout ceiling (`constants.py` is not among the sources
under verification; the concrete value is immaterial to the claims). -/
def DEFAULT_SNIPPET_RPC_TIMEOUT : TimeUnit := TimeUnit.seconds 60

/-- Modelled from the spec: `constants.ERROR_MSG_FOR_LONG_TIMEOUT`, the
invalid-argument message naming the ceiling. -/
def ERROR_MSG_FOR_LONG_TIMEOUT : String :=
  "Timeout must be shorter than the default snippet RPC timeout"

/-- Renders a criteria mapping for error messages. -/
def critStr : List (String × String) → String
  | [] => ""
  | (k, v) :: rest => k ++ "=" ++ v ++ ";" ++ critStr rest

/-- Renders one selector step for error messages. -/
def stepStr (s : SelectorStep) : String :=
  "(" ++ s.tag ++ ":" ++ critStr s.criteria ++ ")"

/-- Renders a serialized selector chain for error messages (the embedding of
the `Selector{...}` fragment of the source's f-strings). -/
def selStr : List SelectorStep → String
  | [] => ""
  | s :: rest => stepStr s ++ selStr rest

/-- Modelled from the spec: `byselector.BySelector(**kwargs)` builds a fresh
selector whose initial step encodes the caller's criteria, and `to_dict`
serializes the chain (`byselector.py` is not among the sources under
verification). -/
def bySelectorOfCriteria (kwargs : Criteria) : List SelectorStep :=
  [{ tag := "by", criteria := kwargs }]

/-- Python truthiness of a criteria mapping: nonempty `kwargs` is truthy. -/
def Criteria.nonempty (k : Criteria) : Bool :=
  match k with
  | ([] : List (String × String)) => false
  | _ :: _ => true

/-- Embeds `_Click` (`uiobject2.py`): holds the bound selector chain and the
RPC timeout ceiling captured at construction
(`utils.covert_to_millisecond(constants.DEFAULT_SNIPPET_RPC_TIMEOUT)`). -/
structure _Click where
  _selector : List SelectorStep
  _rpc_timeout_ms : Nat

/-- Embeds `_Click.__call__`.  The deprecated `timeout` argument aliases
`duration` (the deprecated one wins when both are given).  The remote's
answer to the click RPC is the `remote` parameter.  Returns the ordered RPC
trace and the Python return-or-raise outcome. -/
def _Click.__call__ (c : _Click) (duration timeout : Option TimeUnit)
    (x y : Option Int) (remote : Bool) : List Rpc × Except Err Bool :=
  let duration := match timeout with
    | some t => some t
    | none => duration
  let duration_ms := duration.map covert_to_millisecond
  match x, y with
  | some xv, some yv =>
      ([{ method := "clickObjPoint",
          args := [WireVal.wsel (WireSel.chain c._selector), WireVal.wint xv,
                   WireVal.wint yv, WireVal.wosn duration_ms] }],
       Except.ok remote)
  | none, none =>
      ([{ method := "clickObj",
          args := [WireVal.wsel (WireSel.chain c._selector),
                   WireVal.wosn duration_ms] }],
       Except.ok remote)
  | _, _ =>
      ([], Except.error (Err.apiError "Must provide both x and y to click on point"))

/-- Embeds `_Click.wait`: guards the timeout against the RPC ceiling, then
issues the combined click-and-wait RPC. -/
def _Click.wait (c : _Click) (timeout : TimeUnit) (remote : Bool) :
    List Rpc × Except Err Bool :=
  let timeout_ms := covert_to_millisecond timeout
  if c._rpc_timeout_ms ≤ timeout_ms then
    ([], Except.error (Err.apiError ERROR_MSG_FOR_LONG_TIMEOUT))
  else
    ([{ method := "clickObjAndWait",
        args := [WireVal.wsel (WireSel.chain c._selector),
                 WireVal.wnat timeout_ms] }],
     Except.ok remote)

/-- Embeds `_Drag` (`uiobject2.py`). -/
structure _Drag where
  _selector : List SelectorStep

/-- Embeds `_Drag.to`: destination coordinates and destination criteria are
dispatched to `dragObjToObj` / `dragObj`, any other combination raises. -/
def _Drag.to (d : _Drag) (x y speed : Option Int) (kwargs : Criteria)
    (remote : Bool) : List Rpc × Except Err Bool :=
  if x.isNone && y.isNone && kwargs.nonempty then
    ([{ method := "dragObjToObj",
        args := [WireVal.wsel (WireSel.chain d._selector),
                 WireVal.wsel (WireSel.chain (bySelectorOfCriteria kwargs)),
                 WireVal.wosi speed] }],
     Except.ok remote)
  else if x.isSome && y.isSome && !kwargs.nonempty then
    ([{ method := "dragObj",
        args := [WireVal.wsel (WireSel.chain d._selector),
                 WireVal.wint (x.getD 0), WireVal.wint (y.getD 0),
                 WireVal.wosi speed] }],
     Except.ok remote)
  else
    ([], Except.error
      (Err.apiError "Drag to object and drag to coordinates cannot be mixed"))

/-- Embeds `_Gesture._To` (`uiobject2.py`): a direction-bound sub-builder
carrying the action kind (`swipe` or `fling`), the direction and the
margin/percent bound configuration fixed at construction. -/
structure _Gesture_To where
  _selector : List SelectorStep
  _action : String
  _direction : String
  _margin : Option Int
  _percent : Option Int

/-- Embeds `_Gesture._To.__call__`: `fling` rejects any non-zero percent,
`swipe` requires `0 ≤ percent ≤ 100`; otherwise one gesture RPC is issued. -/
def _Gesture_To.__call__ (g : _Gesture_To) (percent : Int) (speed : Option Int)
    (remote : Bool) : List Rpc × Except Err Bool :=
  if g._action = "fling" then
    if percent ≠ 0 then
      ([], Except.error
        (Err.apiError "fling gesture does not support changing the percent"))
    else
      ([{ method := "fling",
          args := [WireVal.wsel (WireSel.chain g._selector),
                   WireVal.wstr g._direction, WireVal.wosi speed,
                   WireVal.wosi g._margin, WireVal.wosi g._percent] }],
       Except.ok remote)
  else if g._action = "swipe" then
    if ¬(0 ≤ percent ∧ percent ≤ 100) then
      ([], Except.error
        (Err.apiError "swipe gesture requires percent to be between 0 and 100"))
    else
      ([{ method := "swipeObj",
          args := [WireVal.wsel (WireSel.chain g._selector),
                   WireVal.wstr g._direction, WireVal.wint percent,
                   WireVal.wosi speed, WireVal.wosi g._margin,
                   WireVal.wosi g._percent] }],
       Except.ok remote)
  else
    ([], Except.error (Err.apiError ("Unknown gesture action: " ++ g._action)))

/-- Embeds `_Scroll._To` (`uiobject2.py`): a direction-bound scroll
sub-builder with the margin/percent bound configuration fixed at
construction. -/
structure _Scroll_To where
  _selector : List SelectorStep
  _direction : String
  _margin : Option Int
  _percent : Option Int

/-- Embeds `_Scroll._To.__call__`: dispatches on the argument shape to
`scroll`, `scrollUntil` (criteria or target selector) or
`scrollUntilFinished`; mixed shapes raise before any RPC call.  `target` is
the target handle's selector chain (`target._selector.to_dict()`). -/
def _Scroll_To.__call__ (s : _Scroll_To) (percent speed : Option Int)
    (target : Option (List SelectorStep)) (kwargs : Criteria) (remote : Bool) :
    List Rpc × Except Err Bool :=
  if percent.isSome && target.isNone && !kwargs.nonempty then
    ([{ method := "scroll",
        args := [WireVal.wsel (WireSel.chain s._selector),
                 WireVal.wstr s._direction, WireVal.wint (percent.getD 0),
                 WireVal.wosi speed, WireVal.wosi s._margin,
                 WireVal.wosi s._percent] }],
     Except.ok remote)
  else if percent.isNone && speed.isNone then
    if target.isNone && kwargs.nonempty then
      ([{ method := "scrollUntil",
          args := [WireVal.wsel (WireSel.chain s._selector),
                   WireVal.wsel (WireSel.raw kwargs),
                   WireVal.wstr s._direction, WireVal.wosi s._margin,
                   WireVal.wosi s._percent] }],
       Except.ok remote)
    else if target.isNone && !kwargs.nonempty then
      ([{ method := "scrollUntilFinished",
          args := [WireVal.wsel (WireSel.chain s._selector),
                   WireVal.wstr s._direction, WireVal.wosi s._margin,
                   WireVal.wosi s._percent] }],
       Except.ok remote)
    else if target.isSome && !kwargs.nonempty then
      ([{ method := "scrollUntil",
          args := [WireVal.wsel (WireSel.chain s._selector),
                   WireVal.wsel (WireSel.chain (target.getD [])),
                   WireVal.wstr s._direction, WireVal.wosi s._margin,
                   WireVal.wosi s._percent] }],
       Except.ok remote)
    else
      ([], Except.error
        (Err.apiError "Scroll by percentage and scroll by condition cannot be mixed"))
  else
    ([], Except.error
      (Err.apiError "Scroll by percentage and scroll by condition cannot be mixed"))

/-- Embeds `_Scroll._To.click`: scroll-until-visible on `kwargs`, then click
with the raw `kwargs` mapping as the selector argument of `clickObj`.
`remote` answers the scroll-until RPC, `remote_click` the click RPC. -/
def _Scroll_To.click (s : _Scroll_To) (kwargs : Criteria)
    (remote remote_click : Bool) : List Rpc × Except Err Bool :=
  if !kwargs.nonempty then
    ([], Except.error (Err.apiError "Target to scroll to is not defined"))
  else
    let r := s.__call__ none none none kwargs remote
    match r.2 with
    | Except.ok true =>
        (r.1 ++ [{ method := "clickObj",
                   args := [WireVal.wsel (WireSel.raw kwargs)] }],
         Except.ok remote_click)
    | Except.ok false => (r.1, Except.ok false)
    | Except.error e => (r.1, Except.error e)

/-- The object-search message of `_Wait.exists`
(`f'Not found Selector{...} over {timeout_ms} ms'`). -/
def notFoundWaitMsg (sel : List SelectorStep) (timeout_ms : Nat) : String :=
  "Not found Selector" ++ selStr sel ++ " over " ++ toString timeout_ms ++ " ms"

/-- The object-search message of `_Wait.gone`
(`f'Still found Selector{...} over {timeout_ms} ms'`). -/
def stillFoundWaitMsg (sel : List SelectorStep) (timeout_ms : Nat) : String :=
  "Still found Selector" ++ selStr sel ++ " over " ++ toString timeout_ms ++ " ms"

/-- Embeds `_Wait` (`uiobject2.py`): the bound selector chain, the sticky
raise flag inherited from the handle, and the RPC timeout ceiling captured at
construction. -/
structure _Wait where
  _selector : List SelectorStep
  _raise_error : Bool
  _rpc_timeout_ms : Nat

/-- Embeds `_Wait.exists`: guards the timeout, issues the `waitForExists`
polling RPC (its answer is `remote`), and either returns the boolean or, on
failure with a raise flag set, raises the object-search error. -/
def _Wait.exists (w : _Wait) (timeout : TimeUnit) (raise_error : Bool)
    (remote : Bool) : List Rpc × Except Err Bool :=
  let timeout_ms := covert_to_millisecond timeout
  if w._rpc_timeout_ms ≤ timeout_ms then
    ([], Except.error (Err.apiError ERROR_MSG_FOR_LONG_TIMEOUT))
  else
    ([{ method := "waitForExists",
        args := [WireVal.wsel (WireSel.chain w._selector),
                 WireVal.wnat timeout_ms] }],
     if remote then Except.ok true
     else if w._raise_error || raise_error then
       Except.error
         (Err.uiObjectSearchError (notFoundWaitMsg w._selector timeout_ms) none)
     else Except.ok false)

/-- Embeds `_Wait.gone`: guards the timeout, issues the `waitUntilGone`
polling RPC (its answer is `remote`), and either returns the boolean or, on
failure with a raise flag set, raises the object-search error. -/
def _Wait.gone (w : _Wait) (timeout : TimeUnit) (raise_error : Bool)
    (remote : Bool) : List Rpc × Except Err Bool :=
  let timeout_ms := covert_to_millisecond timeout
  if w._rpc_timeout_ms ≤ timeout_ms then
    ([], Except.error (Err.apiError ERROR_MSG_FOR_LONG_TIMEOUT))
  else
    ([{ method := "waitUntilGone",
        args := [WireVal.wsel (WireSel.chain w._selector),
                 WireVal.wnat timeout_ms] }],
     if remote then Except.ok true
     else if w._raise_error || raise_error then
       Except.error
         (Err.uiObjectSearchError (stillFoundWaitMsg w._selector timeout_ms) none)
     else Except.ok false)

/-- Embeds `_Wait.click`: waits for the object to appear (`remote` answers
the wait RPC) and clicks only when found (`remote_click` answers the click
RPC); never raises on a failed wait. -/
def _Wait.click (w : _Wait) (timeout : TimeUnit) (remote remote_click : Bool) :
    List Rpc × Except Err Bool :=
  let timeout_ms := covert_to_millisecond timeout
  if w._rpc_timeout_ms ≤ timeout_ms then
    ([], Except.error (Err.apiError ERROR_MSG_FOR_LONG_TIMEOUT))
  else
    let waitCall : Rpc :=
      { method := "waitForExists",
        args := [WireVal.wsel (WireSel.chain w._selector),
                 WireVal.wnat timeout_ms] }
    if remote then
      ([waitCall,
        { method := "clickObj",
          args := [WireVal.wsel (WireSel.chain w._selector)] }],
       Except.ok remote_click)
    else
      ([waitCall], Except.ok false)

/-- Embeds `_Wait.assert_exists`: runs `exists` with `raise_error=True`
forced, and re-wraps a raised object-search error with the caller's message,
chaining the original as the cause. -/
def _Wait.assert_exists (w : _Wait) (error_msg : String) (timeout : TimeUnit)
    (remote : Bool) : List Rpc × Except Err Unit :=
  let r := w.exists timeout true remote
  match r.2 with
  | Except.ok _ => (r.1, Except.ok ())
  | Except.error (Err.uiObjectSearchError m c) =>
      (r.1, Except.error (Err.uiObjectSearchError error_msg
        (some (Err.uiObjectSearchError m c))))
  | Except.error e => (r.1, Except.error e)

/-- Embeds `_Wait.assert_gone`: runs `gone` with `raise_error=True` forced,
and re-wraps a raised object-search error with the caller's message, chaining
the original as the cause. -/
def _Wait.assert_gone (w : _Wait) (error_msg : String) (timeout : TimeUnit)
    (remote : Bool) : List Rpc × Except Err Unit :=
  let r := w.gone timeout true remote
  match r.2 with
  | Except.ok _ => (r.1, Except.ok ())
  | Except.error (Err.uiObjectSearchError m c) =>
      (r.1, Except.error (Err.uiObjectSearchError error_msg
        (some (Err.uiObjectSearchError m c))))
  | Except.error e => (r.1, Except.error e)

/-- A heap of selector objects.  Python `BySelector` objects are mutable
heap values aliased by reference; a `Store` maps each allocated selector
reference (its index) to the selector's current list of steps. -/
abbrev Store : Type := List (List SelectorStep)

/-- Reads the selector steps held by reference `r`. -/
def Store.read (st : Store) (r : Nat) : List SelectorStep :=
  List.getD st r []

/-- Number of allocated selector references. -/
def Store.size (st : Store) : Nat :=
  List.length st

/-- Modelled from the spec: `BySelector.copy` returns an independent
snapshot of the chain (`byselector.py` is not among the sources under
verification).  Allocates a fresh reference holding the same steps. -/
def Store.copy (st : Store) (r : Nat) : Store × Nat :=
  (List.append st [st.read r], st.size)

/-- Modelled from the spec: `BySelector.append(tag, **criteria)` appends one
`(relationTag, criteria)` step to the chain, in place (`byselector.py` is
not among the sources under verification). -/
def Store.append (st : Store) (r : Nat) (tag : String) (kwargs : Criteria) :
    Store :=
  List.set st r (st.read r ++ [{ tag := tag, criteria := kwargs }])

/-- Embeds `UiObject2` (`uiobject2.py`): an element handle holding a
reference to its selector chain and the sticky raise-on-missing flag. -/
structure UiObject2 where
  _selector : Nat
  _raise_error : Bool
deriving DecidableEq, Repr

/-- Embeds `UiObject2._create_instance`: copies this handle's selector,
appends one navigation step to the copy, and wraps the copy in a new handle
(each navigation method `parent`/`ancestor`/`child`/`sibling`/`bottom`/
`left`/`right`/`top` is this with its relation tag). -/
def UiObject2._create_instance (st : Store) (o : UiObject2) (tag : String)
    (kwargs : Criteria) : Store × UiObject2 :=
  let c := st.copy o._selector
  let st2 := c.1.append c.2 tag kwargs
  (st2, { _selector := c.2, _raise_error := o._raise_error })

/-- Embeds the `UiObject2.parent` property. -/
def UiObject2.parent (st : Store) (o : UiObject2) : Store × UiObject2 :=
  UiObject2._create_instance st o "parent" {}

/-- Embeds `UiObject2.ancestor`. -/
def UiObject2.ancestor (st : Store) (o : UiObject2) (kwargs : Criteria) :
    Store × UiObject2 :=
  UiObject2._create_instance st o "ancestor" kwargs

/-- Embeds `UiObject2.child`. -/
def UiObject2.child (st : Store) (o : UiObject2) (kwargs : Criteria) :
    Store × UiObject2 :=
  UiObject2._create_instance st o "child" kwargs

/-- Embeds `UiObject2.sibling`. -/
def UiObject2.sibling (st : Store) (o : UiObject2) (kwargs : Criteria) :
    Store × UiObject2 :=
  UiObject2._create_instance st o "sibling" kwargs

/-- Embeds `UiObject2.bottom`. -/
def UiObject2.bottom (st : Store) (o : UiObject2) (kwargs : Criteria) :
    Store × UiObject2 :=
  UiObject2._create_instance st o "bottom" kwargs

/-- Embeds `UiObject2.left`. -/
def UiObject2.left (st : Store) (o : UiObject2) (kwargs : Criteria) :
    Store × UiObject2 :=
  UiObject2._create_instance st o "left" kwargs

/-- Embeds `UiObject2.right`. -/
def UiObject2.right (st : Store) (o : UiObject2) (kwargs : Criteria) :
    Store × UiObject2 :=
  UiObject2._create_instance st o "right" kwargs

/-- Embeds `UiObject2.top`. -/
def UiObject2.top (st : Store) (o : UiObject2) (kwargs : Criteria) :
    Store × UiObject2 :=
  UiObject2._create_instance st o "top" kwargs

/-- The object-search message of the `UiObject2.exists` property
(`f'Not found Selector{...}'`). -/
def notFoundMsg (sel : List SelectorStep) : String :=
  "Not found Selector" ++ selStr sel

/-- Embeds the `UiObject2.exists` property: issues the `exists` RPC (its
answer is `remote`); when the object is missing and the sticky flag is set,
raises the object-search error, else returns the boolean. -/
def UiObject2.exists (st : Store) (o : UiObject2) (remote : Bool) :
    List Rpc × Except Err Bool :=
  let d := st.read o._selector
  ([{ method := "exists", args := [WireVal.wsel (WireSel.chain d)] }],
   if !remote && o._raise_error then
     Except.error (Err.uiObjectSearchError (notFoundMsg d) none)
   else Except.ok remote)

/-- Embeds `UiObject2.assert_exists`: saves the sticky flag, forces it to
`True`, evaluates the `exists` property, re-wraps a raised object-search
error with the caller's message (chaining the original), and restores the
saved flag in the `finally` block on every exit path.  Returns the RPC
trace, the outcome, and the handle as it is after the call. -/
def UiObject2.assert_exists (st : Store) (o : UiObject2) (error_msg : String)
    (remote : Bool) : (List Rpc × Except Err Unit) × UiObject2 :=
  let current_raise_error := o._raise_error
  let o1 : UiObject2 := { o with _raise_error := true }
  let r := o1.exists st remote
  let outcome : Except Err Unit :=
    match r.2 with
    | Except.ok _ => Except.ok ()
    | Except.error (Err.uiObjectSearchError m c) =>
        Except.error (Err.uiObjectSearchError error_msg
          (some (Err.uiObjectSearchError m c)))
    | Except.error e => Except.error e
  let o2 : UiObject2 := { o1 with _raise_error := current_raise_error }
  ((r.1, outcome), o2)

/-- Embeds the `UiObject2.click` property: builds a `_Click` bound to this
handle's selector chain (the builder captures the selector reference; its
dereferenced steps are embedded, since no operation mutates a selector cell
after capture). -/
def UiObject2.click (st : Store) (o : UiObject2) : _Click :=
  { _selector := st.read o._selector,
    _rpc_timeout_ms := covert_to_millisecond DEFAULT_SNIPPET_RPC_TIMEOUT }

/-- Embeds the `UiObject2.drag` property. -/
def UiObject2.drag (st : Store) (o : UiObject2) : _Drag :=
  { _selector := st.read o._selector }

/-- Embeds the `UiObject2.wait` property: the `_Wait` builder inherits the
handle's sticky raise flag. -/
def UiObject2.wait (st : Store) (o : UiObject2) : _Wait :=
  { _selector := st.read o._selector,
    _raise_error := o._raise_error,
    _rpc_timeout_ms := covert_to_millisecond DEFAULT_SNIPPET_RPC_TIMEOUT }

/-- Embeds the `UiObject2.swipe` property: a swipe `_Gesture._To` bound to
direction `dir` with the builder's margin/percent configuration. -/
def UiObject2.swipe (st : Store) (o : UiObject2) (dir : String)
    (margin percent : Option Int) : _Gesture_To :=
  { _selector := st.read o._selector, _action := "swipe", _direction := dir,
    _margin := margin, _percent := percent }

/-- Embeds the `UiObject2.fling` property: a fling `_Gesture._To` bound to
direction `dir` with the builder's margin/percent configuration. -/
def UiObject2.fling (st : Store) (o : UiObject2) (dir : String)
    (margin percent : Option Int) : _Gesture_To :=
  { _selector := st.read o._selector, _action := "fling", _direction := dir,
    _margin := margin, _percent := percent }

/-- Embeds the `UiObject2.scroll` property: a `_Scroll._To` bound to
direction `dir` with the builder's margin/percent configuration. -/
def UiObject2.scroll (st : Store) (o : UiObject2) (dir : String)
    (margin percent : Option Int) : _Scroll_To :=
  { _selector := st.read o._selector, _direction := dir,
    _margin := margin, _percent := percent }

theorem Store.read_append_left (st : Store) (v : List SelectorStep) (r : Nat)
    (h : r < st.size) : Store.read (List.append st [v]) r = st.read r :=
  List.getD_append st [v] [] r h

theorem Store.read_append_self (st : Store) (v : List SelectorStep) :
    Store.read (List.append st [v]) st.size = v := by
  show List.getD (st ++ [v]) st.length [] = v
  rw [List.getD_append_right st [v] [] st.length (Nat.le_refl _)]
  simp [List.getD]

theorem Store.read_set_ne (st : Store) (r r2 : Nat) (v : List SelectorStep)
    (h : r ≠ r2) : Store.read (List.set st r v) r2 = st.read r2 := by
  show List.getD (List.set st r v) r2 [] = List.getD st r2 []
  rw [List.getD_eq_getD_get?, List.getD_eq_getD_get?, List.get?_eq_getElem?,
    List.get?_eq_getElem?, List.getElem?_set_ne h]

theorem Store.read_set_self (st : Store) (r : Nat) (v : List SelectorStep)
    (h : r < st.size) : Store.read (List.set st r v) r = v := by
  show List.getD (List.set st r v) r [] = v
  rw [List.getD_eq_getD_get?, List.get?_eq_getElem?,
    List.getElem?_set_eq_of_lt v h]
  rfl

/-- Claim C3: every navigation call (`parent`, `ancestor`, `child`,
`sibling`, `bottom`, `left`, `right`, `top`, i.e. `_create_instance` at any
relation tag) returns a new handle whose selector is an independent copy of
the original extended by one step; the selector held by the original
handle's reference — and by any other previously allocated reference, in
particular a handle branched from the same parent — is unchanged, and the
new handle's reference is distinct from every previously allocated one. -/
theorem create_instance_copies_and_preserves (st : Store) (o : UiObject2)
    (tag : String) (kwargs : Criteria) (r : Nat) (hr : r < st.size) :
    Store.read (UiObject2._create_instance st o tag kwargs).1
        (UiObject2._create_instance st o tag kwargs).2._selector
      = st.read o._selector ++ [{ tag := tag, criteria := kwargs }]
    ∧ Store.read (UiObject2._create_instance st o tag kwargs).1 r = st.read r
    ∧ (UiObject2._create_instance st o tag kwargs).2._selector ≠ r
    ∧ (UiObject2._create_instance st o tag kwargs).2._raise_error
        = o._raise_error := by
  have hsz : st.size < Store.size (List.append st [st.read o._selector]) := by
    simp [Store.size]
  refine ⟨?_, ?_, ?_, rfl⟩
  · show Store.read
        (Store.append (List.append st [st.read o._selector]) st.size tag kwargs)
        st.size = _
    unfold Store.append
    rw [Store.read_append_self, Store.read_set_self _ _ _ hsz]
  · show Store.read
        (Store.append (List.append st [st.read o._selector]) st.size tag kwargs)
        r = _
    unfold Store.append
    rw [Store.read_set_ne _ _ _ _ (Nat.ne_of_gt hr),
      Store.read_append_left _ _ _ hr]
  · exact Nat.ne_of_gt hr

theorem create_instance_copies_and_preserves_witness :
    ((0 : Nat) < Store.size [[{ tag := "by", criteria := [("text", "ok")] }]])
    ∧ Store.read
        (UiObject2._create_instance
          [[{ tag := "by", criteria := [("text", "ok")] }]]
          { _selector := 0, _raise_error := false } "child"
          [("resourceId", "x")]).1 0
      = [{ tag := "by", criteria := [("text", "ok")] }] :=
  ⟨by decide,
   (create_instance_copies_and_preserves
      [[{ tag := "by", criteria := [("text", "ok")] }]]
      { _selector := 0, _raise_error := false } "child" [("resourceId", "x")]
      0 (by decide)).2.1⟩

/-- Claim C4: `_Click.__call__` with exactly one of `x`/`y` supplied raises
the invalid-argument error with no RPC call; with both supplied it issues
exactly the point-click RPC (`clickObjPoint` with x, y and the millisecond
duration); with neither it issues exactly the plain-click RPC (`clickObj`
with the millisecond duration). -/
theorem click_call_dispatch (c : _Click) (duration timeout : Option TimeUnit)
    (x y : Option Int) (remote : Bool) :
    (x.isSome ∧ y.isNone ∨ x.isNone ∧ y.isSome →
      c.__call__ duration timeout x y remote =
        ([], Except.error
          (Err.apiError "Must provide both x and y to click on point")))
    ∧ (∀ xv yv, x = some xv → y = some yv →
      c.__call__ duration timeout x y remote =
        ([{ method := "clickObjPoint",
            args := [WireVal.wsel (WireSel.chain c._selector),
                     WireVal.wint xv, WireVal.wint yv,
                     WireVal.wosn ((match timeout with
                       | some t => some t
                       | none => duration).map covert_to_millisecond)] }],
         Except.ok remote))
    ∧ (x = none → y = none →
      c.__call__ duration timeout x y remote =
        ([{ method := "clickObj",
            args := [WireVal.wsel (WireSel.chain c._selector),
                     WireVal.wosn ((match timeout with
                       | some t => some t
                       | none => duration).map covert_to_millisecond)] }],
         Except.ok remote)) := by
  rcases x with _ | xv <;> rcases y with _ | yv <;>
    simp [_Click.__call__]

theorem click_call_dispatch_witness :
    (({ _selector := [], _rpc_timeout_ms := 60000 } : _Click).__call__
        none none (some 5) none true
      = ([], Except.error
          (Err.apiError "Must provide both x and y to click on point")))
    ∧ (({ _selector := [], _rpc_timeout_ms := 60000 } : _Click).__call__
        none none (some 5) (some 10) true
      = ([{ method := "clickObjPoint",
            args := [WireVal.wsel (WireSel.chain []), WireVal.wint 5,
                     WireVal.wint 10, WireVal.wosn none] }],
         Except.ok true)) :=
  ⟨(click_call_dispatch { _selector := [], _rpc_timeout_ms := 60000 }
      none none (some 5) none true).1 (Or.inl (by simp)),
   (click_call_dispatch { _selector := [], _rpc_timeout_ms := 60000 }
      none none (some 5) (some 10) true).2.1 5 10 rfl rfl⟩

/-- Claim C5: `_Gesture._To.__call__` for a fling builder rejects any
non-zero percent before any RPC call and issues the `fling` RPC at
percent 0; for a swipe builder it rejects any percent outside 0..100 before
any RPC call and issues the `swipeObj` RPC for any percent inside the
range. -/
theorem gesture_call_validation (g : _Gesture_To) (percent : Int)
    (speed : Option Int) (remote : Bool) :
    (g._action = "fling" → percent ≠ 0 →
      g.__call__ percent speed remote =
        ([], Except.error
          (Err.apiError "fling gesture does not support changing the percent")))
    ∧ (g._action = "fling" → percent = 0 →
      g.__call__ percent speed remote =
        ([{ method := "fling",
            args := [WireVal.wsel (WireSel.chain g._selector),
                     WireVal.wstr g._direction, WireVal.wosi speed,
                     WireVal.wosi g._margin, WireVal.wosi g._percent] }],
         Except.ok remote))
    ∧ (g._action = "swipe" → ¬(0 ≤ percent ∧ percent ≤ 100) →
      g.__call__ percent speed remote =
        ([], Except.error
          (Err.apiError "swipe gesture requires percent to be between 0 and 100")))
    ∧ (g._action = "swipe" → 0 ≤ percent → percent ≤ 100 →
      g.__call__ percent speed remote =
        ([{ method := "swipeObj",
            args := [WireVal.wsel (WireSel.chain g._selector),
                     WireVal.wstr g._direction, WireVal.wint percent,
                     WireVal.wosi speed, WireVal.wosi g._margin,
                     WireVal.wosi g._percent] }],
         Except.ok remote)) := by
  refine ⟨?_, ?_, ?_, ?_⟩ <;> intro ha h
  · simp [_Gesture_To.__call__, ha, h]
  · simp [_Gesture_To.__call__, ha, h]
  · simp [_Gesture_To.__call__, ha, h]
  · intro h2
    simp [_Gesture_To.__call__, ha, h, h2]

theorem gesture_call_validation_witness :
    ((UiObject2.fling [[]] { _selector := 0, _raise_error := false } "UP"
        none none).__call__ 10 none true
      = ([], Except.error
          (Err.apiError "fling gesture does not support changing the percent")))
    ∧ ((UiObject2.swipe [[]] { _selector := 0, _raise_error := false } "DOWN"
        none none).__call__ 150 none true
      = ([], Except.error
          (Err.apiError "swipe gesture requires percent to be between 0 and 100")))
    ∧ ((UiObject2.swipe [[]] { _selector := 0, _raise_error := false } "DOWN"
        none none).__call__ 50 none true
      = ([{ method := "swipeObj",
            args := [WireVal.wsel (WireSel.chain []), WireVal.wstr "DOWN",
                     WireVal.wint 50, WireVal.wosi none, WireVal.wosi none,
                     WireVal.wosi none] }],
         Except.ok true)) :=
  ⟨(gesture_call_validation
      (UiObject2.fling [[]] { _selector := 0, _raise_error := false } "UP"
        none none) 10 none true).1 rfl (by decide),
   (gesture_call_validation
      (UiObject2.swipe [[]] { _selector := 0, _raise_error := false } "DOWN"
        none none) 150 none true).2.2.1 rfl (by decide),
   (gesture_call_validation
      (UiObject2.swipe [[]] { _selector := 0, _raise_error := false } "DOWN"
        none none) 50 none true).2.2.2 rfl (by decide) (by decide)⟩

/-- Claim C7: `_Drag.to` dispatches destination coordinates (both `x` and
`y`, no criteria) to the drag-to-point RPC `dragObj`, destination criteria
(no coordinates) to the drag-to-object RPC `dragObjToObj`, and raises the
invalid-argument error before any RPC call on every other combination (both
kinds, a single coordinate, or neither kind). -/
theorem drag_to_dispatch (d : _Drag) (x y speed : Option Int)
    (kwargs : Criteria) (remote : Bool) :
    (x = none → y = none → kwargs ≠ [] →
      d.to x y speed kwargs remote =
        ([{ method := "dragObjToObj",
            args := [WireVal.wsel (WireSel.chain d._selector),
                     WireVal.wsel (WireSel.chain (bySelectorOfCriteria kwargs)),
                     WireVal.wosi speed] }],
         Except.ok remote))
    ∧ (∀ xv yv, x = some xv → y = some yv → kwargs = [] →
      d.to x y speed kwargs remote =
        ([{ method := "dragObj",
            args := [WireVal.wsel (WireSel.chain d._selector),
                     WireVal.wint xv, WireVal.wint yv,
                     WireVal.wosi speed] }],
         Except.ok remote))
    ∧ (¬(x = none ∧ y = none ∧ kwargs ≠ []) →
       ¬(x.isSome ∧ y.isSome ∧ kwargs = []) →
      d.to x y speed kwargs remote =
        ([], Except.error
          (Err.apiError "Drag to object and drag to coordinates cannot be mixed"))) := by
  refine ⟨?_, ?_, ?_⟩
  · intro hx hy hk
    rcases kwargs with _ | ⟨p, rest⟩
    · exact absurd rfl hk
    · simp [_Drag.to, hx, hy, Criteria.nonempty]
  · intro xv yv hx hy hk
    simp [_Drag.to, hx, hy, hk, Criteria.nonempty]
  · intro h1 h2
    rcases x with _ | xv <;> rcases y with _ | yv <;>
      rcases kwargs with _ | ⟨p, rest⟩ <;>
      simp [_Drag.to, Criteria.nonempty] <;> simp_all

theorem drag_to_dispatch_witness :
    (({ _selector := [] } : _Drag).to none none none [("text", "t")] true
      = ([{ method := "dragObjToObj",
            args := [WireVal.wsel (WireSel.chain []),
                     WireVal.wsel (WireSel.chain
                       [{ tag := "by", criteria := [("text", "t")] }]),
                     WireVal.wosi none] }],
         Except.ok true))
    ∧ (({ _selector := [] } : _Drag).to (some 3) none none [] true
      = ([], Except.error
          (Err.apiError "Drag to object and drag to coordinates cannot be mixed"))) :=
  ⟨(drag_to_dispatch { _selector := [] } none none none [("text", "t")]
      true).1 rfl rfl (by decide),
   (drag_to_dispatch { _selector := [] } (some 3) none none [] true).2.2
      (by simp) (by simp)⟩

/-- Claim C2: `_Scroll._To.__call__` dispatches to exactly one of four
mutually exclusive RPC shapes — percent with no target/criteria issues the
fixed-distance `scroll`; criteria only (no percent/speed) issues
scroll-until-criteria (`scrollUntil` with the raw criteria); a target handle
only (no percent/speed) issues scroll-until-target (`scrollUntil` with the
target's serialized selector); none of percent/speed/target/criteria issues
`scrollUntilFinished` — and any other combination raises the
invalid-argument error before any RPC call. -/
theorem scroll_call_dispatch (s : _Scroll_To) (percent speed : Option Int)
    (target : Option (List SelectorStep)) (kwargs : Criteria) (remote : Bool) :
    (∀ p, percent = some p → target = none → kwargs = [] →
      s.__call__ percent speed target kwargs remote =
        ([{ method := "scroll",
            args := [WireVal.wsel (WireSel.chain s._selector),
                     WireVal.wstr s._direction, WireVal.wint p,
                     WireVal.wosi speed, WireVal.wosi s._margin,
                     WireVal.wosi s._percent] }],
         Except.ok remote))
    ∧ (percent = none → speed = none → target = none → kwargs ≠ [] →
      s.__call__ percent speed target kwargs remote =
        ([{ method := "scrollUntil",
            args := [WireVal.wsel (WireSel.chain s._selector),
                     WireVal.wsel (WireSel.raw kwargs),
                     WireVal.wstr s._direction, WireVal.wosi s._margin,
                     WireVal.wosi s._percent] }],
         Except.ok remote))
    ∧ (∀ t, percent = none → speed = none → target = some t → kwargs = [] →
      s.__call__ percent speed target kwargs remote =
        ([{ method := "scrollUntil",
            args := [WireVal.wsel (WireSel.chain s._selector),
                     WireVal.wsel (WireSel.chain t),
                     WireVal.wstr s._direction, WireVal.wosi s._margin,
                     WireVal.wosi s._percent] }],
         Except.ok remote))
    ∧ (percent = none → speed = none → target = none → kwargs = [] →
      s.__call__ percent speed target kwargs remote =
        ([{ method := "scrollUntilFinished",
            args := [WireVal.wsel (WireSel.chain s._selector),
                     WireVal.wstr s._direction, WireVal.wosi s._margin,
                     WireVal.wosi s._percent] }],
         Except.ok remote))
    ∧ (¬(percent.isSome ∧ target = none ∧ kwargs = []) →
       ¬(percent = none ∧ speed = none ∧ target = none ∧ kwargs ≠ []) →
       ¬(percent = none ∧ speed = none ∧ target.isSome ∧ kwargs = []) →
       ¬(percent = none ∧ speed = none ∧ target = none ∧ kwargs = []) →
      s.__call__ percent speed target kwargs remote =
        ([], Except.error
          (Err.apiError "Scroll by percentage and scroll by condition cannot be mixed"))) := by
  refine ⟨?_, ?_, ?_, ?_, ?_⟩
  · intro p hp ht hk
    simp [_Scroll_To.__call__, hp, ht, hk, Criteria.nonempty]
  · intro hp hs ht hk
    rcases kwargs with _ | ⟨q, rest⟩
    · exact absurd rfl hk
    · simp [_Scroll_To.__call__, hp, hs, ht, Criteria.nonempty]
  · intro t hp hs ht hk
    simp [_Scroll_To.__call__, hp, hs, ht, hk, Criteria.nonempty]
  · intro hp hs ht hk
    simp [_Scroll_To.__call__, hp, hs, ht, hk, Criteria.nonempty]
  · intro h1 h2 h3 h4
    rcases percent with _ | p <;> rcases speed with _ | sp <;>
      rcases target with _ | t <;> rcases kwargs with _ | ⟨q, rest⟩ <;>
      simp [_Scroll_To.__call__, Criteria.nonempty] <;> simp_all

theorem scroll_call_dispatch_witness :
    ((UiObject2.scroll [[]] { _selector := 0, _raise_error := false } "DOWN"
        none none).__call__ (some 50) none (some []) [] true
      = ([], Except.error
          (Err.apiError "Scroll by percentage and scroll by condition cannot be mixed")))
    ∧ ((UiObject2.scroll [[]] { _selector := 0, _raise_error := false } "DOWN"
        none none).__call__ none none none [] true
      = ([{ method := "scrollUntilFinished",
            args := [WireVal.wsel (WireSel.chain []), WireVal.wstr "DOWN",
                     WireVal.wosi none, WireVal.wosi none] }],
         Except.ok true))
    ∧ ((UiObject2.scroll [[]] { _selector := 0, _raise_error := false } "DOWN"
        none none).__call__ none none none [("resourceId", "x")] true
      = ([{ method := "scrollUntil",
            args := [WireVal.wsel (WireSel.chain []),
                     WireVal.wsel (WireSel.raw [("resourceId", "x")]),
                     WireVal.wstr "DOWN", WireVal.wosi none,
                     WireVal.wosi none] }],
         Except.ok true)) :=
  ⟨(scroll_call_dispatch
      (UiObject2.scroll [[]] { _selector := 0, _raise_error := false } "DOWN"
        none none) (some 50) none (some []) [] true).2.2.2.2
      (by simp) (by simp) (by simp) (by simp),
   (scroll_call_dispatch
      (UiObject2.scroll [[]] { _selector := 0, _raise_error := false } "DOWN"
        none none) none none none [] true).2.2.2.1 rfl rfl rfl rfl,
   (scroll_call_dispatch
      (UiObject2.scroll [[]] { _selector := 0, _raise_error := false } "DOWN"
        none none) none none none [("resourceId", "x")] true).2.1
      rfl rfl rfl (by decide)⟩

/-- Claim C10: `_Scroll._To.click` with criteria, when the scroll-until step
succeeds, issues the follow-up `clickObj` RPC with the raw criteria mapping
itself as its selector argument — which is distinct from the serialization
of any selector chain, in particular from the handle's chain extended by the
criteria and from the criteria serialized through the selector type. -/
theorem scroll_click_uses_raw_kwargs (s : _Scroll_To) (kwargs : Criteria)
    (remote_click : Bool) (hk : kwargs ≠ []) :
    s.click kwargs true remote_click =
      ([{ method := "scrollUntil",
          args := [WireVal.wsel (WireSel.chain s._selector),
                   WireVal.wsel (WireSel.raw kwargs),
                   WireVal.wstr s._direction, WireVal.wosi s._margin,
                   WireVal.wosi s._percent] },
        { method := "clickObj",
          args := [WireVal.wsel (WireSel.raw kwargs)] }],
       Except.ok remote_click)
    ∧ ∀ steps : List SelectorStep, WireSel.raw kwargs ≠ WireSel.chain steps := by
  constructor
  · rcases kwargs with _ | ⟨q, rest⟩
    · exact absurd rfl hk
    · simp [_Scroll_To.click, _Scroll_To.__call__, Criteria.nonempty]
  · intro steps h
    exact WireSel.noConfusion h

theorem scroll_click_uses_raw_kwargs_witness :
    ((UiObject2.scroll [[]] { _selector := 0, _raise_error := false } "DOWN"
        none none).click [("text", "t")] true true
      = ([{ method := "scrollUntil",
            args := [WireVal.wsel (WireSel.chain []),
                     WireVal.wsel (WireSel.raw [("text", "t")]),
                     WireVal.wstr "DOWN", WireVal.wosi none,
                     WireVal.wosi none] },
          { method := "clickObj",
            args := [WireVal.wsel (WireSel.raw [("text", "t")])] }],
         Except.ok true)) :=
  (scroll_click_uses_raw_kwargs
    (UiObject2.scroll [[]] { _selector := 0, _raise_error := false } "DOWN"
      none none) [("text", "t")] true (by decide)).1

/-- Claim C1: `_Click.wait`, `_Wait.exists` and `_Wait.gone` all reject a
timeout whose millisecond conversion reaches the RPC-channel timeout ceiling
with `ApiError` and an empty RPC trace, and for any timeout strictly below
the ceiling each issues exactly one wait/click RPC call. -/
theorem timeout_guard_before_rpc (c : _Click) (w : _Wait) (timeout : TimeUnit)
    (raise_error remote : Bool) :
    (c._rpc_timeout_ms ≤ covert_to_millisecond timeout →
      c.wait timeout remote =
        ([], Except.error (Err.apiError ERROR_MSG_FOR_LONG_TIMEOUT)))
    ∧ (covert_to_millisecond timeout < c._rpc_timeout_ms →
      (c.wait timeout remote).1 =
        [{ method := "clickObjAndWait",
           args := [WireVal.wsel (WireSel.chain c._selector),
                    WireVal.wnat (covert_to_millisecond timeout)] }])
    ∧ (w._rpc_timeout_ms ≤ covert_to_millisecond timeout →
      w.exists timeout raise_error remote =
        ([], Except.error (Err.apiError ERROR_MSG_FOR_LONG_TIMEOUT))
      ∧ w.gone timeout raise_error remote =
        ([], Except.error (Err.apiError ERROR_MSG_FOR_LONG_TIMEOUT)))
    ∧ (covert_to_millisecond timeout < w._rpc_timeout_ms →
      (w.exists timeout raise_error remote).1 =
        [{ method := "waitForExists",
           args := [WireVal.wsel (WireSel.chain w._selector),
                    WireVal.wnat (covert_to_millisecond timeout)] }]
      ∧ (w.gone timeout raise_error remote).1 =
        [{ method := "waitUntilGone",
           args := [WireVal.wsel (WireSel.chain w._selector),
                    WireVal.wnat (covert_to_millisecond timeout)] }]) := by
  refine ⟨?_, ?_, ?_, ?_⟩ <;> intro h
  · simp [_Click.wait, h]
  · simp [_Click.wait, Nat.not_le.mpr h]
  · exact ⟨by simp [_Wait.exists, h], by simp [_Wait.gone, h]⟩
  · exact ⟨by simp [_Wait.exists, Nat.not_le.mpr h],
      by simp [_Wait.gone, Nat.not_le.mpr h]⟩

theorem timeout_guard_before_rpc_witness :
    (UiObject2.wait [[]] { _selector := 0, _raise_error := false }).exists
        (TimeUnit.seconds 60) false true
      = ([], Except.error (Err.apiError ERROR_MSG_FOR_LONG_TIMEOUT))
    ∧ ((UiObject2.wait [[]] { _selector := 0, _raise_error := false }).exists
        (TimeUnit.millis 10000) false true).1
      = [{ method := "waitForExists",
           args := [WireVal.wsel (WireSel.chain []),
                    WireVal.wnat 10000] }] :=
  ⟨((timeout_guard_before_rpc
      (UiObject2.click [[]] { _selector := 0, _raise_error := false })
      (UiObject2.wait [[]] { _selector := 0, _raise_error := false })
      (TimeUnit.seconds 60) false true).2.2.1 (by decide)).1,
   ((timeout_guard_before_rpc
      (UiObject2.click [[]] { _selector := 0, _raise_error := false })
      (UiObject2.wait [[]] { _selector := 0, _raise_error := false })
      (TimeUnit.millis 10000) false true).2.2.2 (by decide)).1⟩

/-- Claim C6: `_Wait.exists` with a valid timeout returns `true` when the
remote wait RPC answers `true`; when the remote answers `false` it returns
`false` if neither the sticky flag nor the per-call override is set, and
otherwise raises the object-search error whose message embeds the serialized
selector and the millisecond timeout bound. -/
theorem wait_exists_raise_semantics (w : _Wait) (timeout : TimeUnit)
    (raise_error : Bool)
    (h : covert_to_millisecond timeout < w._rpc_timeout_ms) :
    (w.exists timeout raise_error true).2 = Except.ok true
    ∧ (w._raise_error = false → raise_error = false →
      (w.exists timeout raise_error false).2 = Except.ok false)
    ∧ (w._raise_error = true ∨ raise_error = true →
      (w.exists timeout raise_error false).2 =
        Except.error (Err.uiObjectSearchError
          (notFoundWaitMsg w._selector (covert_to_millisecond timeout)) none)
      ∧ (∃ p q, notFoundWaitMsg w._selector (covert_to_millisecond timeout)
          = p ++ selStr w._selector ++ q)
      ∧ (∃ p q, notFoundWaitMsg w._selector (covert_to_millisecond timeout)
          = p ++ toString (covert_to_millisecond timeout) ++ q)) := by
  refine ⟨?_, ?_, ?_⟩
  · simp [_Wait.exists, Nat.not_le.mpr h]
  · intro h1 h2
    simp [_Wait.exists, Nat.not_le.mpr h, h1, h2]
  · intro h1
    refine ⟨?_, ?_, ?_⟩
    · rcases h1 with h1 | h1 <;> simp [_Wait.exists, Nat.not_le.mpr h, h1]
    · exact ⟨"Not found Selector",
        " over " ++ toString (covert_to_millisecond timeout) ++ " ms",
        by simp [notFoundWaitMsg, String.append_assoc]⟩
    · exact ⟨"Not found Selector" ++ selStr w._selector ++ " over ", " ms",
        by simp [notFoundWaitMsg, String.append_assoc]⟩

theorem wait_exists_raise_semantics_witness :
    ((UiObject2.wait [[]] { _selector := 0, _raise_error := false }).exists
        (TimeUnit.millis 10000) false false).2 = Except.ok false
    ∧ ((UiObject2.wait [[]] { _selector := 0, _raise_error := false }).exists
        (TimeUnit.millis 10000) true false).2 =
      Except.error (Err.uiObjectSearchError
        (notFoundWaitMsg [] 10000) none) :=
  ⟨(wait_exists_raise_semantics
      (UiObject2.wait [[]] { _selector := 0, _raise_error := false })
      (TimeUnit.millis 10000) false (by decide)).2.1 rfl rfl,
   ((wait_exists_raise_semantics
      (UiObject2.wait [[]] { _selector := 0, _raise_error := false })
      (TimeUnit.millis 10000) true (by decide)).2.2 (Or.inr rfl)).1⟩

/-- Claim C8: on a failing existence check, `_Wait.assert_exists` and
`UiObject2.assert_exists` raise an object-search error whose message is
exactly the caller-supplied message and whose chained cause is the original
object-search error of the underlying check. -/
theorem assert_exists_wraps_cause (w : _Wait) (st : Store) (o : UiObject2)
    (error_msg : String) (timeout : TimeUnit)
    (h : covert_to_millisecond timeout < w._rpc_timeout_ms) :
    (w.assert_exists error_msg timeout false).2 =
      Except.error (Err.uiObjectSearchError error_msg
        (some (Err.uiObjectSearchError
          (notFoundWaitMsg w._selector (covert_to_millisecond timeout)) none)))
    ∧ (UiObject2.assert_exists st o error_msg false).1.2 =
      Except.error (Err.uiObjectSearchError error_msg
        (some (Err.uiObjectSearchError (notFoundMsg (st.read o._selector))
          none))) := by
  constructor
  · simp [_Wait.assert_exists, _Wait.exists, Nat.not_le.mpr h]
  · simp [UiObject2.assert_exists, UiObject2.exists]

theorem assert_exists_wraps_cause_witness :
    ((UiObject2.wait [[]] { _selector := 0, _raise_error := false }).assert_exists
        "custom message" (TimeUnit.millis 10000) false).2 =
      Except.error (Err.uiObjectSearchError "custom message"
        (some (Err.uiObjectSearchError (notFoundWaitMsg [] 10000) none))) :=
  (assert_exists_wraps_cause
    (UiObject2.wait [[]] { _selector := 0, _raise_error := false })
    [[]] { _selector := 0, _raise_error := false } "custom message"
    (TimeUnit.millis 10000) (by decide)).1

/-- Claim C9: `UiObject2.assert_exists` leaves the handle's `raiseOnMissing`
flag equal to its value before the call on every exit path — whether the
existence check succeeds or the object-search error is raised — so the
temporary forcing of the flag to `true` is never observable afterwards. -/
theorem assert_exists_restores_flag (st : Store) (o : UiObject2)
    (error_msg : String) (remote : Bool) :
    ((UiObject2.assert_exists st o error_msg remote).2)._raise_error
      = o._raise_error := rfl
